import Mathlib

/-
Shallow embedding of the Buffered-Channel-Framework repository
(src/channel.c and src/linked_list.c), for checking the natural-language
specification against the code.

Modelling conventions:
- Pointers to list nodes are indices into an explicit heap (`Heap`); `none`
  is the NULL pointer; a freed node is a `none` slot in the heap.
- Waiter tokens (addresses of the select-local semaphore) are opaque `Nat`
  identifiers; `sem_post` on a token is recorded by appending the token to a
  list of posted tokens.
- Loops with no structural bound in the C source (`list_find`, `list_foreach`,
  the select retry loop) take an explicit fuel argument; the result `none`
  means the C code has not returned within that fuel.  For a statement of
  non-termination we prove `= none` for every fuel.
- The embedding is sequential (one thread).  A `pthread_cond_wait`, and a
  `sem_wait` on a semaphore of value 0, can never be signalled by another
  thread in a sequential run, so those program points never return: they are
  modelled as `none`.  `pthread_cond_signal` / `broadcast` have no further
  sequential effect and are elided.
- Machine integers: `count` in `list_t` is a `size_t`; its increments and
  decrements are taken mod 2^64.
-/

def szMod : Nat := 2 ^ 64

/-- A `list_node_t` from linked_list.c: `data` is the stored pointer (a waiter
token id), `next` and `prev` are node pointers (heap indices, `none` = NULL). -/
structure ListNode where
  data : Nat
  next : Option Nat
  prev : Option Nat
deriving Repr, DecidableEq

/-- The node heap: index = address; a `none` entry is a freed node. -/
abbrev Heap := List (Option ListNode)

/-- A `list_t` from linked_list.c: head pointer and element count. -/
structure ListT where
  head : Option Nat
  count : Nat
deriving Repr, DecidableEq

/-- Dereference a node pointer; `none` when the pointer is NULL-adjacent
(out of range) or the node was freed. -/
def heapGet (h : Heap) (i : Nat) : Option ListNode :=
  match h.get? i with
  | some (some n) => some n
  | _ => none

/-- Write through a node pointer (no-op on an invalid pointer, which no
claim's trace reaches). -/
def heapModify (h : Heap) (i : Nat) (f : ListNode → ListNode) : Heap :=
  match h.get? i with
  | some (some n) => h.set i (some (f n))
  | _ => h

/-- `list_create` from linked_list.c: head = NULL, count = 0. -/
def list_create : ListT := { head := none, count := 0 }

/-- `list_insert` from linked_list.c, statement by statement.  Note the
source's control flow: the `if (!list->head)` branch assigns `list->head =
node`, and then execution FALLS THROUGH to `curr = list->head`, which now
reads the freshly inserted node, so `node->next` ends up pointing at `node`
itself when the list was empty. -/
def list_insert (h : Heap) (l : ListT) (d : Nat) : Heap × ListT :=
  let idx := h.length
  let h1 := h ++ [some { data := d, next := none, prev := none }]
  let l1 := if l.head = none then { l with head := some idx } else l
  let curr := l1.head
  let l2 := { l1 with head := some idx }
  let h2 := heapModify h1 idx (fun n => { n with next := curr, prev := none })
  let h3 := match curr with
    | some c => heapModify h2 c (fun n => { n with prev := some idx })
    | none => h2
  (h3, { l2 with count := (l2.count + 1) % szMod })

/-- `list_remove` from linked_list.c.  Fields of the node are re-read from the
heap between the two pointer updates, exactly as the C statements do. -/
def list_remove (h : Heap) (l : ListT) (node : Option Nat) : Heap × ListT :=
  match node with
  | none => (h, l)
  | some i =>
    match heapGet h i with
    | none => (h, l)
    | some n0 =>
      let hl1 : Heap × ListT :=
        match n0.prev with
        | none => (h, { l with head := n0.next })
        | some p => (heapModify h p (fun m => { m with next := n0.next }), l)
      match heapGet hl1.1 i with
      | none => (hl1.1, hl1.2)
      | some n1 =>
        let h2 := match n1.next with
          | some nx => heapModify hl1.1 nx (fun m => { m with prev := n1.prev })
          | none => hl1.1
        (h2.set i none, { hl1.2 with count := (hl1.2.count + (szMod - 1)) % szMod })

/-- Traversal of `list_find` from linked_list.c, with fuel.  Result
`some r`: the loop terminated with node pointer `r`; `none`: the fuel ran out
(the C loop is still running) or a dangling pointer was dereferenced. -/
def list_findAux (h : Heap) (d : Nat) : Option Nat → Nat → Option (Option Nat)
  | none, _ => some none
  | some _, 0 => none
  | some i, fuel + 1 =>
    match heapGet h i with
    | some n => if n.data = d then some (some i) else list_findAux h d n.next fuel
    | none => none

/-- `list_find` from linked_list.c. -/
def list_find (h : Heap) (l : ListT) (d : Nat) (fuel : Nat) : Option (Option Nat) :=
  list_findAux h d l.head fuel

/-- Traversal of `list_foreach` from linked_list.c where the applied function
is `sem_post`: returns the list of token ids posted to, in traversal order, or
`none` when the fuel runs out before the loop reaches NULL. -/
def list_foreachAux (h : Heap) : Option Nat → Nat → Option (List Nat)
  | none, _ => some []
  | some i, fuel =>
    match fuel with
    | 0 => none
    | Nat.succ f =>
      match heapGet h i with
      | some n => Option.map (fun ps => n.data :: ps) (list_foreachAux h n.next f)
      | none => none

/-- `list_foreach(list, sem_post)` from linked_list.c. -/
def list_foreach (h : Heap) (l : ListT) (fuel : Nat) : Option (List Nat) :=
  list_foreachAux h l.head fuel

/-- `list_count` from linked_list.c: the source is a stub that returns 0
regardless of the list. -/
def list_count (_ : ListT) : Nat := 0

/-- Modelled from the spec: buffer.c is not under src/.  Status of the bounded
FIFO buffer: add/remove report BUFFER_ERROR for full resp. empty (channel.c
compares against BUFFER_ERROR). -/
inductive BufferStatus where
  | BUFFER_SUCCESS
  | BUFFER_ERROR
deriving Repr, DecidableEq

/-- Modelled from the spec: buffer.c is not under src/.  A bounded FIFO queue
of opaque one-word element handles with capacity fixed at creation (spec
sections 2 and 6); a capacity of 0 is always full to senders and empty to
receivers. -/
structure Buffer where
  capacity : Nat
  data : List Int
deriving Repr, DecidableEq

/-- Modelled from the spec: `buffer_create(capacity)` yields an empty bounded
FIFO of that capacity. -/
def buffer_create (n : Nat) : Buffer := { capacity := n, data := [] }

/-- Modelled from the spec: `buffer_add` appends at the tail and reports
BUFFER_ERROR when the buffer is full. -/
def buffer_add (b : Buffer) (v : Int) : BufferStatus × Buffer :=
  if b.data.length < b.capacity then
    (BufferStatus.BUFFER_SUCCESS, { b with data := b.data ++ [v] })
  else
    (BufferStatus.BUFFER_ERROR, b)

/-- Modelled from the spec: `buffer_remove` takes from the head (FIFO) and
reports BUFFER_ERROR when the buffer is empty. -/
def buffer_remove (b : Buffer) : BufferStatus × Option Int × Buffer :=
  match b.data with
  | [] => (BufferStatus.BUFFER_ERROR, none, b)
  | v :: rest => (BufferStatus.BUFFER_SUCCESS, some v, { b with data := rest })

/-- `enum channel_status` from channel.h, as used by channel.c. -/
inductive ChannelStatus where
  | SUCCESS
  | GEN_ERROR
  | CLOSED_ERROR
  | CHANNEL_FULL
  | CHANNEL_EMPTY
  | DESTROY_ERROR
deriving Repr, DecidableEq

/-- `channel_t` from channel.h as used by channel.c: the buffer, the closed
flag, and the selector registry (its node heap plus the `list_t` header).
The mutex and the two condition variables have no state visible to a
sequential run and are elided. -/
structure Channel where
  buffer : Buffer
  is_closed : Bool
  selHeap : Heap
  select : ListT
deriving Repr, DecidableEq

/-- `channel_create` from channel.c. -/
def channel_create (size : Nat) : Channel :=
  { buffer := buffer_create size, is_closed := false, selHeap := [], select := list_create }

/-- `channel_send` from channel.c (blocking).  In a sequential run the
`pthread_cond_wait` inside the retry loop can never be signalled, so a full
buffer means the call never returns (`none`).  On success the result carries
the tokens posted by `list_foreach(channel->select, sem_post)`; `none` also
covers that loop not terminating.  The `if (channel->select)` pointer test is
always true (list_create returns a valid pointer). -/
def channel_send (c : Channel) (v : Int) (ff : Nat) :
    Option (ChannelStatus × Channel × List Nat) :=
  if c.is_closed then some (ChannelStatus.CLOSED_ERROR, c, [])
  else
    match buffer_add c.buffer v with
    | (BufferStatus.BUFFER_ERROR, _) => none
    | (BufferStatus.BUFFER_SUCCESS, b2) =>
      match list_foreach c.selHeap c.select ff with
      | none => none
      | some posts => some (ChannelStatus.SUCCESS, { c with buffer := b2 }, posts)

/-- `channel_receive` from channel.c (blocking), symmetric to `channel_send`;
the second component is the value stored through the out-parameter. -/
def channel_receive (c : Channel) (ff : Nat) :
    Option (ChannelStatus × Option Int × Channel × List Nat) :=
  if c.is_closed then some (ChannelStatus.CLOSED_ERROR, none, c, [])
  else
    match buffer_remove c.buffer with
    | (BufferStatus.BUFFER_ERROR, _, _) => none
    | (BufferStatus.BUFFER_SUCCESS, out, b2) =>
      match list_foreach c.selHeap c.select ff with
      | none => none
      | some posts => some (ChannelStatus.SUCCESS, out, { c with buffer := b2 }, posts)

/-- `channel_non_blocking_send` from channel.c. -/
def channel_non_blocking_send (c : Channel) (v : Int) (ff : Nat) :
    Option (ChannelStatus × Channel × List Nat) :=
  if c.is_closed then some (ChannelStatus.CLOSED_ERROR, c, [])
  else
    match buffer_add c.buffer v with
    | (BufferStatus.BUFFER_ERROR, _) => some (ChannelStatus.CHANNEL_FULL, c, [])
    | (BufferStatus.BUFFER_SUCCESS, b2) =>
      match list_foreach c.selHeap c.select ff with
      | none => none
      | some posts => some (ChannelStatus.SUCCESS, { c with buffer := b2 }, posts)

/-- `channel_non_blocking_receive` from channel.c. -/
def channel_non_blocking_receive (c : Channel) (ff : Nat) :
    Option (ChannelStatus × Option Int × Channel × List Nat) :=
  if c.is_closed then some (ChannelStatus.CLOSED_ERROR, none, c, [])
  else
    match buffer_remove c.buffer with
    | (BufferStatus.BUFFER_ERROR, _, _) => some (ChannelStatus.CHANNEL_EMPTY, none, c, [])
    | (BufferStatus.BUFFER_SUCCESS, out, b2) =>
      match list_foreach c.selHeap c.select ff with
      | none => none
      | some posts => some (ChannelStatus.SUCCESS, out, { c with buffer := b2 }, posts)

/-- `channel_close` from channel.c.  The two broadcasts wake nobody in a
sequential run; the post loop is `list_foreach(channel->select, sem_post)`. -/
def channel_close (c : Channel) (ff : Nat) :
    Option (ChannelStatus × Channel × List Nat) :=
  if c.is_closed then some (ChannelStatus.CLOSED_ERROR, c, [])
  else
    match list_foreach c.selHeap c.select ff with
    | none => none
    | some posts => some (ChannelStatus.SUCCESS, { c with is_closed := true }, posts)

/-- `channel_destroy` from channel.c: only the status logic (deallocation has
no observable state afterwards). -/
def channel_destroy (c : Channel) : ChannelStatus :=
  if c.is_closed = false then ChannelStatus.DESTROY_ERROR else ChannelStatus.SUCCESS

/-- `enum direction` of `select_t` from channel.h, as used by channel.c. -/
inductive Direction where
  | SEND
  | RECV
deriving Repr, DecidableEq

/-- A `select_t` entry: the participating channel (an index into the channel
vector of the run), the direction, and — for SEND — the value carried in the
data slot (for RECV the slot is an out-parameter, reported in the result). -/
structure SelectIntent where
  channel : Nat
  dir : Direction
  data : Int
deriving Repr, DecidableEq

/-- Observable outcome of a terminating `channel_select` call:
the returned status, the value `*selected_index` was set to (`none`: the
function returned without ever writing through `selected_index`), the final
channel states, and the value delivered through a RECV slot, if any. -/
structure SelectResult where
  status : ChannelStatus
  selected_index : Option Nat
  chans : List Channel
  received : Option Int
deriving Repr, DecidableEq

/-- Outcome of the registration loop (step 2) of `channel_select`:
either a channel was observed closed (early return, with the channel states
as mutated so far — note the already performed insertions are kept), or all
intents were registered. -/
inductive RegOut where
  | closedSeen (st : List Channel)
  | registered (st : List Channel)
deriving Repr, DecidableEq

/-- The registration `for` loop of `channel_select` (channel.c lines 203-213):
lock each channel in order, return CLOSED_ERROR on a closed one, otherwise
`list_insert(channel->select, &select)` the waiter token. `none` = a bad
channel index (UB in C, unreachable in the traces considered). -/
def selRegister (tok : Nat) : List Channel → List SelectIntent → Option RegOut
  | st, [] => some (RegOut.registered st)
  | st, it :: rest =>
    match st.get? it.channel with
    | none => none
    | some c =>
      if c.is_closed then some (RegOut.closedSeen st)
      else
        let hl := list_insert c.selHeap c.select tok
        selRegister tok (st.set it.channel { c with selHeap := hl.1, select := hl.2 }) rest

/-- The deregistration `for` loop of `channel_select` (channel.c lines
224-228): for every intent, `list_remove(select, list_find(select, &select))`
under that channel's mutex.  `none` = `list_find` still looping after the
given fuel, or a bad channel index. -/
def selDeregister (tok ff : Nat) : List Channel → List SelectIntent → Option (List Channel)
  | st, [] => some st
  | st, it :: rest =>
    match st.get? it.channel with
    | none => none
    | some c =>
      match list_find c.selHeap c.select tok ff with
      | none => none
      | some found =>
        let hl := list_remove c.selHeap c.select found
        selDeregister tok ff (st.set it.channel { c with selHeap := hl.1, select := hl.2 }) rest

/-- One sweep of the attempt `for` loop of `channel_select` (channel.c lines
216-233).  `i` is the index of the first intent of the remaining list `its`;
`all` is the full intent vector (the cleanup loop runs over all of it).
Result: `some (Sum.inl res)` — the sweep decided and the function returns;
`some (Sum.inr st)` — every intent reported not-ready (CHANNEL_FULL or
CHANNEL_EMPTY); `none` — a non-blocking operation or the cleanup never
returned within the fuel.  The `status = GEN_ERROR` initialization for an
out-of-range direction is dead code here because `Direction` has exactly the
two constructors the source tests for. -/
def selSweep (all : List SelectIntent) (tok ff : Nat) :
    List Channel → Nat → List SelectIntent → Option (Sum SelectResult (List Channel))
  | st, _, [] => some (Sum.inr st)
  | st, i, it :: rest =>
    match st.get? it.channel with
    | none => none
    | some c =>
      let step : Option (ChannelStatus × Option Int × Channel) :=
        match it.dir with
        | Direction.SEND =>
          match channel_non_blocking_send c it.data ff with
          | none => none
          | some (stat, c2, _) => some (stat, none, c2)
        | Direction.RECV =>
          match channel_non_blocking_receive c ff with
          | none => none
          | some (stat, out, c2, _) => some (stat, out, c2)
      match step with
      | none => none
      | some (stat, out, c2) =>
        let st2 := st.set it.channel c2
        if stat = ChannelStatus.SUCCESS ∨ stat = ChannelStatus.GEN_ERROR ∨
            stat = ChannelStatus.DESTROY_ERROR ∨ stat = ChannelStatus.CLOSED_ERROR then
          match selDeregister tok ff st2 all with
          | none => none
          | some st3 =>
            some (Sum.inl { status := stat, selected_index := some i, chans := st3, received := out })
        else
          selSweep all tok ff st2 (i + 1) rest

/-- The `while (true)` retry loop of `channel_select` (channel.c lines
215-235), with loop fuel `lf`.  `sem` is the current value of the select-local
semaphore; between sweeps the source calls `sem_wait(&select)`, which in a
sequential run blocks forever when the value is 0 (no other thread can post). -/
def selLoop (all : List SelectIntent) (tok ff : Nat) :
    List Channel → Nat → Nat → Option SelectResult
  | _, _, 0 => none
  | st, sem, lf + 1 =>
    match selSweep all tok ff st 0 all with
    | none => none
    | some (Sum.inl res) => some res
    | some (Sum.inr st2) =>
      if sem > 0 then selLoop all tok ff st2 (sem - 1) lf
      else none

/-- `channel_select` from channel.c. `tok` is the address of the stack-local
semaphore `select` (`sem_init(&select, 0, 0)` gives it value 0).  On the early
CLOSED_ERROR return from registration the source destroys the semaphore and
returns WITHOUT writing `*selected_index` and WITHOUT removing the token from
the channels already registered — the result records the mutated channel
states and `selected_index := none`. -/
def channel_select (st : List Channel) (intents : List SelectIntent) (tok ff lf : Nat) :
    Option SelectResult :=
  match selRegister tok st intents with
  | none => none
  | some (RegOut.closedSeen st2) =>
    some { status := ChannelStatus.CLOSED_ERROR, selected_index := none,
           chans := st2, received := none }
  | some (RegOut.registered st2) => selLoop intents tok ff st2 0 lf

theorem heapGet_concat (h : Heap) (n : ListNode) :
    heapGet (h ++ [some n]) h.length = some n := by
  simp [heapGet, List.get?_concat_length]

theorem heapModify_eq_set (h : Heap) (i : Nat) (f : ListNode → ListNode) (n : ListNode)
    (hg : heapGet h i = some n) :
    heapModify h i f = h.set i (some (f n)) := by
  unfold heapGet at hg
  unfold heapModify
  cases hq : h.get? i with
  | none => rw [hq] at hg; exact absurd hg (by simp)
  | some o =>
    cases o with
    | none => rw [hq] at hg; exact absurd hg (by simp)
    | some m =>
      rw [hq] at hg
      simp only [Option.some.injEq] at hg
      subst hg
      rfl

theorem heapGet_set_node (h : Heap) (i : Nat) (n : ListNode) (hi : i < h.length) :
    heapGet (h.set i (some n)) i = some n := by
  unfold heapGet
  rw [List.get?_set_eq_of_lt _ hi]

theorem list_foreachAux_none (h : Heap) (fuel : Nat) :
    list_foreachAux h none fuel = some [] := by
  cases fuel <;> rfl

/-- If a node points at itself, the `list_foreach` traversal starting at it
never reaches NULL: it reports out-of-fuel at every fuel. -/
theorem list_foreachAux_cycle (h : Heap) (i : Nat) (n : ListNode)
    (hget : heapGet h i = some n) (hnext : n.next = some i) :
    ∀ fuel, list_foreachAux h (some i) fuel = none := by
  intro fuel
  induction fuel with
  | zero => rfl
  | succ f ih => simp [list_foreachAux, hget, hnext, ih]

/-- What `list_insert` produces on an empty list (head = NULL): the new node
sits at address `h.length`, the head points at it, and both its `next` and
`prev` point back at the node itself. -/
theorem list_insert_empty_spec (h : Heap) (l : ListT) (d : Nat) (hempty : l.head = none) :
    (list_insert h l d).2.head = some h.length ∧
    heapGet (list_insert h l d).1 h.length =
      some { data := d, next := some h.length, prev := some h.length } := by
  have e1 : heapGet (h ++ [some ({ data := d, next := none, prev := none } : ListNode)]) h.length
      = some { data := d, next := none, prev := none } := heapGet_concat h _
  have hlen1 : h.length < (h ++ [some ({ data := d, next := none, prev := none } : ListNode)]).length := by
    simp
  have e2 := heapModify_eq_set _ h.length
    (fun m => { m with next := some h.length, prev := none }) _ e1
  have e3 : heapGet ((h ++ [some ({ data := d, next := none, prev := none } : ListNode)]).set
      h.length (some { data := d, next := some h.length, prev := none })) h.length
      = some { data := d, next := some h.length, prev := none } :=
    heapGet_set_node _ _ _ hlen1
  have e4 := heapModify_eq_set _ h.length
    (fun m => { m with prev := some h.length }) _ e3
  have hlen2 : h.length <
      ((h ++ [some ({ data := d, next := none, prev := none } : ListNode)]).set
        h.length (some { data := d, next := some h.length, prev := none })).length := by
    simp
  constructor
  · simp [list_insert, hempty]
  · simp only [list_insert, hempty, if_pos]
    simp only [e2, e4]
    exact heapGet_set_node _ _ _ hlen2

/-- C9: calling `list_insert` on an empty list makes the inserted node's
`next` pointer refer to the node itself (`head->next == head`), so the
one-element list is cyclic and a subsequent `list_foreach` never terminates
(it fails to finish within any fuel). -/
theorem C9_insert_empty_self_cycle (h : Heap) (l : ListT) (d fuel : Nat)
    (hempty : l.head = none) :
    (list_insert h l d).2.head = some h.length ∧
    heapGet (list_insert h l d).1 h.length =
      some { data := d, next := some h.length, prev := some h.length } ∧
    list_foreach (list_insert h l d).1 (list_insert h l d).2 fuel = none := by
  obtain ⟨hhead, hnode⟩ := list_insert_empty_spec h l d hempty
  refine ⟨hhead, hnode, ?_⟩
  unfold list_foreach
  rw [hhead]
  exact list_foreachAux_cycle _ _ _ hnode rfl fuel

/-- Witness for C9 at the concrete empty list and heap. -/
theorem C9_insert_empty_self_cycle_witness :
    (list_insert [] list_create 5).2.head = some 0 ∧
    heapGet (list_insert [] list_create 5).1 0 =
      some { data := 5, next := some 0, prev := some 0 } ∧
    list_foreach (list_insert [] list_create 5).1 (list_insert [] list_create 5).2 4 = none :=
  C9_insert_empty_self_cycle [] list_create 5 4 rfl

/-- C3: on a channel whose closed flag is set, blocking receive and
non-blocking receive return CLOSED_ERROR at once, write nothing through the
out parameter, post to nobody, and leave the channel (in particular its
buffer) unchanged — whatever the buffer contains. -/
theorem C3_closed_receive_rejects (c : Channel) (ff : Nat) (h : c.is_closed = true) :
    channel_receive c ff = some (ChannelStatus.CLOSED_ERROR, none, c, []) ∧
    channel_non_blocking_receive c ff = some (ChannelStatus.CLOSED_ERROR, none, c, []) := by
  constructor
  · simp [channel_receive, h]
  · simp [channel_non_blocking_receive, h]

/-- Witness for C3: a closed capacity-1 channel still holding the value 7
(spec scenario 3). -/
theorem C3_closed_receive_rejects_witness :
    ((⟨⟨1, [7]⟩, true, [], ⟨none, 0⟩⟩ : Channel).is_closed = true) ∧
    channel_receive ⟨⟨1, [7]⟩, true, [], ⟨none, 0⟩⟩ 0 =
      some (ChannelStatus.CLOSED_ERROR, none, ⟨⟨1, [7]⟩, true, [], ⟨none, 0⟩⟩, []) ∧
    channel_non_blocking_receive ⟨⟨1, [7]⟩, true, [], ⟨none, 0⟩⟩ 0 =
      some (ChannelStatus.CLOSED_ERROR, none, ⟨⟨1, [7]⟩, true, [], ⟨none, 0⟩⟩, []) :=
  ⟨rfl, (C3_closed_receive_rejects _ 0 rfl).1, (C3_closed_receive_rejects _ 0 rfl).2⟩

/-- C4: the FIFO scenario on a fresh capacity-2 channel: try_send 1 and 2
succeed, a third try_send reports CHANNEL_FULL, then try_receive yields 1,
then 2, then CHANNEL_EMPTY.  Every intermediate channel state is spelled
out. -/
theorem C4_fifo_capacity_two (ff : Nat) :
    channel_non_blocking_send (channel_create 2) 1 ff =
      some (ChannelStatus.SUCCESS, ⟨⟨2, [1]⟩, false, [], ⟨none, 0⟩⟩, []) ∧
    channel_non_blocking_send ⟨⟨2, [1]⟩, false, [], ⟨none, 0⟩⟩ 2 ff =
      some (ChannelStatus.SUCCESS, ⟨⟨2, [1, 2]⟩, false, [], ⟨none, 0⟩⟩, []) ∧
    channel_non_blocking_send ⟨⟨2, [1, 2]⟩, false, [], ⟨none, 0⟩⟩ 3 ff =
      some (ChannelStatus.CHANNEL_FULL, ⟨⟨2, [1, 2]⟩, false, [], ⟨none, 0⟩⟩, []) ∧
    channel_non_blocking_receive ⟨⟨2, [1, 2]⟩, false, [], ⟨none, 0⟩⟩ ff =
      some (ChannelStatus.SUCCESS, some 1, ⟨⟨2, [2]⟩, false, [], ⟨none, 0⟩⟩, []) ∧
    channel_non_blocking_receive ⟨⟨2, [2]⟩, false, [], ⟨none, 0⟩⟩ ff =
      some (ChannelStatus.SUCCESS, some 2, ⟨⟨2, []⟩, false, [], ⟨none, 0⟩⟩, []) ∧
    channel_non_blocking_receive ⟨⟨2, []⟩, false, [], ⟨none, 0⟩⟩ ff =
      some (ChannelStatus.CHANNEL_EMPTY, none, ⟨⟨2, []⟩, false, [], ⟨none, 0⟩⟩, []) := by
  refine ⟨?_, ?_, ?_, ?_, ?_, ?_⟩ <;>
    simp [channel_non_blocking_send, channel_non_blocking_receive, channel_create,
      buffer_create, buffer_add, buffer_remove, list_create, list_foreach, list_foreachAux_none]

/-- Iterated `channel_non_blocking_send` over a list of values, used to state
the capacity boundary claim: the statuses in call order and the final channel,
or `none` when some call never returned. -/
def trySendAll (ff : Nat) : Channel → List Int → Option (List ChannelStatus × Channel)
  | c, [] => some ([], c)
  | c, v :: rest =>
    match channel_non_blocking_send c v ff with
    | none => none
    | some (stat, c2, _) =>
      match trySendAll ff c2 rest with
      | none => none
      | some (stats, c3) => some (stat :: stats, c3)

/-- On a fresh (open, no selectors) channel whose buffer holds `pre`, sending
a list of values that still fits the capacity succeeds value by value and
appends them in FIFO order. -/
theorem trySendAll_fills (ff cap : Nat) :
    ∀ (vs pre : List Int), pre.length + vs.length ≤ cap →
    trySendAll ff ⟨⟨cap, pre⟩, false, [], ⟨none, 0⟩⟩ vs =
      some (vs.map (fun _ => ChannelStatus.SUCCESS),
            ⟨⟨cap, pre ++ vs⟩, false, [], ⟨none, 0⟩⟩) := by
  intro vs
  induction vs with
  | nil => intro pre _; simp [trySendAll]
  | cons v rest ih =>
    intro pre hle
    have hlt : pre.length < cap := by simp at hle; omega
    have hsend : channel_non_blocking_send ⟨⟨cap, pre⟩, false, [], ⟨none, 0⟩⟩ v ff =
        some (ChannelStatus.SUCCESS, ⟨⟨cap, pre ++ [v]⟩, false, [], ⟨none, 0⟩⟩, []) := by
      simp [channel_non_blocking_send, buffer_add, hlt, list_foreach, list_foreachAux_none]
    have hrest := ih (pre ++ [v]) (by simp at hle ⊢; omega)
    simp [trySendAll, hsend, hrest]

/-- C5: on a fresh open channel of capacity K, K try_sends all succeed and
fill the buffer, the next try_send reports CHANNEL_FULL and changes nothing,
and (whenever K ≥ 1, so that a receive can succeed) after one successful
try_receive the next try_send succeeds again. -/
theorem C5_capacity_boundary (K : Nat) (vs : List Int) (v w : Int) (ff : Nat)
    (hlen : vs.length = K) :
    trySendAll ff (channel_create K) vs =
      some (vs.map (fun _ => ChannelStatus.SUCCESS), ⟨⟨K, vs⟩, false, [], ⟨none, 0⟩⟩) ∧
    channel_non_blocking_send ⟨⟨K, vs⟩, false, [], ⟨none, 0⟩⟩ v ff =
      some (ChannelStatus.CHANNEL_FULL, ⟨⟨K, vs⟩, false, [], ⟨none, 0⟩⟩, []) ∧
    (1 ≤ K → ∃ (x : Int) (c2 c3 : Channel),
      channel_non_blocking_receive ⟨⟨K, vs⟩, false, [], ⟨none, 0⟩⟩ ff =
        some (ChannelStatus.SUCCESS, some x, c2, []) ∧
      channel_non_blocking_send c2 w ff = some (ChannelStatus.SUCCESS, c3, [])) := by
  refine ⟨?_, ?_, ?_⟩
  · have hfill := trySendAll_fills ff K vs [] (by simp [hlen])
    simpa [channel_create, buffer_create, list_create] using hfill
  · have hfull : ¬ vs.length < K := by omega
    simp [channel_non_blocking_send, buffer_add, hfull]
  · intro hK
    cases vs with
    | nil => simp at hlen; omega
    | cons a t =>
      refine ⟨a, ⟨⟨K, t⟩, false, [], ⟨none, 0⟩⟩, ⟨⟨K, t ++ [w]⟩, false, [], ⟨none, 0⟩⟩, ?_, ?_⟩
      · simp [channel_non_blocking_receive, buffer_remove, list_foreach, list_foreachAux_none]
      · have ht : t.length < K := by simp at hlen; omega
        simp [channel_non_blocking_send, buffer_add, ht, list_foreach, list_foreachAux_none]

/-- Witness for C5 at K = 2 with values [5, 6]. -/
theorem C5_capacity_boundary_witness :
    trySendAll 0 (channel_create 2) [5, 6] =
      some ([ChannelStatus.SUCCESS, ChannelStatus.SUCCESS],
            ⟨⟨2, [5, 6]⟩, false, [], ⟨none, 0⟩⟩) ∧
    channel_non_blocking_send ⟨⟨2, [5, 6]⟩, false, [], ⟨none, 0⟩⟩ 7 0 =
      some (ChannelStatus.CHANNEL_FULL, ⟨⟨2, [5, 6]⟩, false, [], ⟨none, 0⟩⟩, []) ∧
    (∃ (x : Int) (c2 c3 : Channel),
      channel_non_blocking_receive ⟨⟨2, [5, 6]⟩, false, [], ⟨none, 0⟩⟩ 0 =
        some (ChannelStatus.SUCCESS, some x, c2, []) ∧
      channel_non_blocking_send c2 8 0 = some (ChannelStatus.SUCCESS, c3, [])) := by
  have h := C5_capacity_boundary 2 [5, 6] 7 8 0 rfl
  exact ⟨h.1, h.2.1, h.2.2 (by omega)⟩

/-- An open capacity-1 empty channel with no selectors. -/
def openChan1 : Channel := ⟨⟨1, []⟩, false, [], ⟨none, 0⟩⟩

/-- A closed capacity-1 empty channel with no selectors. -/
def closedChan1 : Channel := ⟨⟨1, []⟩, true, [], ⟨none, 0⟩⟩

/-- `openChan1` after the registration loop of `channel_select` has inserted
waiter token 7: the selectors list holds the single self-cyclic node that
`list_insert` produces on an empty list. -/
def openChan1Reg : Channel := ⟨⟨1, []⟩, false, [some ⟨7, some 0, some 0⟩], ⟨some 0, 1⟩⟩

/-- C1 evaluated at its failing input: `channel_select` over an open channel
followed by a closed one takes the early return in the registration loop, and
that return path destroys the semaphore WITHOUT removing the token from the
open channel in which it was already inserted — the returned state still has
the token's node as the head of that channel's selectors set. -/
theorem C1_early_exit_token_left_registered (ff lf : Nat) :
    channel_select [openChan1, closedChan1]
        [⟨0, Direction.RECV, 0⟩, ⟨1, Direction.RECV, 0⟩] 7 ff lf =
      some { status := ChannelStatus.CLOSED_ERROR, selected_index := none,
             chans := [openChan1Reg, closedChan1], received := none } ∧
    openChan1Reg.select.head = some 0 ∧
    heapGet openChan1Reg.selHeap 0 = some { data := 7, next := some 0, prev := some 0 } :=
  ⟨rfl, rfl, rfl⟩

/-- C2 evaluated at its failing input: a select whose single participating
channel is already closed returns CLOSED_ERROR from the registration loop,
but that return path never writes through `selected_index` (modelled as
`selected_index = none`), although the claim — and the function's own header
comment — says the index of the closed channel is stored there. -/
theorem C2_closed_at_registration_index_not_set (ff lf : Nat) :
    channel_select [closedChan1] [⟨0, Direction.RECV, 0⟩] 3 ff lf =
      some { status := ChannelStatus.CLOSED_ERROR, selected_index := none,
             chans := [closedChan1], received := none } :=
  rfl

/-- An open capacity-1 empty channel in which a select has registered waiter
token 5: its selectors list is the one-node self-cycle. -/
def stuckChan : Channel := ⟨⟨1, []⟩, false, [some ⟨5, some 0, some 0⟩], ⟨some 0, 1⟩⟩

/-- C6 evaluated at its failing input: `channel_close` on an OPEN channel
that has a registered selector token never returns — after setting the flag
and broadcasting it enters `list_foreach(channel->select, sem_post)` over the
cyclic selectors list, which terminates within no fuel.  (The monotonicity
parts of the claim do hold: close on a closed channel returns CLOSED_ERROR
leaving the state unchanged, and no operation resets the flag.) -/
theorem C6_close_with_selector_never_returns (ff : Nat) :
    channel_close stuckChan ff = none := by
  have hcyc := list_foreachAux_cycle [some (⟨5, some 0, some 0⟩ : ListNode)] 0
    ⟨5, some 0, some 0⟩ rfl rfl ff
  simp [channel_close, stuckChan, list_foreach, hcyc]

/-- C7 evaluated at its failing input: a state-changing success on a channel
with a registered waiter token never returns — both try_send and blocking
send on `stuckChan` enqueue the value and then loop forever inside
`list_foreach(channel->select, sem_post)` over the cyclic selectors list, so
the post-to-every-waiter-then-return contract is never completed. -/
theorem C7_success_post_never_returns (ff : Nat) (v : Int) :
    channel_non_blocking_send stuckChan v ff = none ∧
    channel_send stuckChan v ff = none := by
  have hcyc := list_foreachAux_cycle [some (⟨5, some 0, some 0⟩ : ListNode)] 0
    ⟨5, some 0, some 0⟩ rfl rfl ff
  constructor
  · simp [channel_non_blocking_send, stuckChan, buffer_add, list_foreach, hcyc]
  · simp [channel_send, stuckChan, buffer_add, list_foreach, hcyc]

/-- First channel of the C8 scenario: capacity 1, holding the value 9. -/
def c8Recv : Channel := ⟨⟨1, [9]⟩, false, [], ⟨none, 0⟩⟩

/-- Second channel of the C8 scenario: capacity 1, empty. -/
def c8Send : Channel := ⟨⟨1, []⟩, false, [], ⟨none, 0⟩⟩

/-- `c8Recv` after select registers waiter token 4 in it. -/
def c8RecvReg : Channel := ⟨⟨1, [9]⟩, false, [some ⟨4, some 0, some 0⟩], ⟨some 0, 1⟩⟩

/-- `c8Send` after select registers waiter token 4 in it. -/
def c8SendReg : Channel := ⟨⟨1, []⟩, false, [some ⟨4, some 0, some 0⟩], ⟨some 0, 1⟩⟩

/-- C8 evaluated at its failing input: select([{c1,RECV},{c2,SEND,5}]) with c1
full and c2 empty never returns.  Registration makes both selectors lists
cyclic one-node lists; the first sweep's non-blocking receive on c1 removes
the value 9 and then loops forever in `list_foreach(c1->select, sem_post)`,
so the call neither returns SUCCESS nor sets out_index. -/
theorem C8_ready_select_never_returns (ff lf : Nat) :
    channel_select [c8Recv, c8Send]
        [⟨0, Direction.RECV, 0⟩, ⟨1, Direction.SEND, 5⟩] 4 ff lf = none := by
  have hreg : selRegister 4 [c8Recv, c8Send]
      [⟨0, Direction.RECV, 0⟩, ⟨1, Direction.SEND, 5⟩] =
      some (RegOut.registered [c8RecvReg, c8SendReg]) := rfl
  have hcyc := list_foreachAux_cycle [some (⟨4, some 0, some 0⟩ : ListNode)] 0
    ⟨4, some 0, some 0⟩ rfl rfl ff
  have hrecv : channel_non_blocking_receive c8RecvReg ff = none := by
    simp [channel_non_blocking_receive, c8RecvReg, buffer_remove, list_foreach, hcyc]
  cases lf with
  | zero => simp [channel_select, hreg, selLoop]
  | succ n => simp [channel_select, hreg, selLoop, selSweep, hrecv]

/-- C10: `channel_select` with zero intents registers nowhere, sweeps over
nothing, and then blocks forever in `sem_wait` on the fresh semaphore of
value 0 that no channel can post to: it fails to return within any fuel. -/
theorem C10_select_no_channels_blocks (st : List Channel) (tok ff lf : Nat) :
    channel_select st [] tok ff lf = none := by
  cases lf with
  | zero => rfl
  | succ n => rfl
